import Mathlib

/-
  Verification of the Argo data-analysis pipeline
  (repository SLokesh1810/argo_data_analysis_repo).

  Shallow embedding of the two core modules:
  - scripts/incois_raw_to_processed.py   (binary-to-tabular converter)
  - scripts/dataset_extraction_ftp.py    (archive synchronizer)

  Conventions of the embedding:
  - pandas/numpy missing values (NaN / NaT) are modelled as `Option` fields
    set to `none`; pandas treats NaN as equal to NaN inside
    drop_duplicates, which matches `Option` equality with none = none.
  - python exceptions are modelled with `Except ConvError`: a value
    `.error e` that is not pattern-matched away corresponds to an
    exception propagating out of the python function.
  - float64 data values are modelled as rationals; the numeric min/max
    statistics and the printf-style formatting of the summary sentence
    are floating-point presentation and are not modelled; the fields of
    the catalog entry that the specification constrains structurally
    (Float_ID, Num_Profiles, Num_Rows, BGC_Vars, the trailing clause of
    Summary) are modelled exactly.
  - the Depth(m) column is produced by the external TEOS-10 library
    function gsw.z_from_p, whose code is not part of this repository; the
    pressure-to-depth relation is modelled separately (from the
    specification text) as `depthFromPressure` below.
-/

set_option autoImplicit false
set_option synthInstance.maxSize 512

namespace Argo

/-! ## Converter data model (incois_raw_to_processed.py) -/

/-- Static lookup table `BGC_VAR_MAP` of the source: maps the six
recognized biogeochemical source variable names to output column names. -/
def BGC_VAR_MAP : List (String × String) :=
  [("DOXY", "Dissolved_Oxygen(umol/kg)"),
   ("PH_IN_SITU_TOTAL", "pH_Value"),
   ("CHLA", "Chlorophyll_a(mg/m3)"),
   ("BBP700", "Backscatter_700nm(m-1)"),
   ("NITRATE", "Nitrate(umol/kg)"),
   ("DOWNWELLING_PAR", "Downwelling_PAR(umol/m2/s)")]

/-- One row of the tabular output of `nc_to_df` (one measurement at one
(instrument, cycle, level)).  `bgc` holds the biogeochemical columns
present in the row, keyed by output column name.  The Depth(m) column,
being a derived value computed by the external gsw library, is modelled
separately by `depthFromPressure`. -/
structure Row where
  floatId : String
  cycle : Int
  dateTime : Nat
  lat : Option ℚ
  lon : Option ℚ
  pres : Option ℚ
  temp : Option ℚ
  sal : Option ℚ
  bgc : List (String × Option ℚ)
  deriving DecidableEq

/-- The merge/dedup key of §3:
(Float_ID, Cycle_Number, DateTime, Latitude, Longitude, Pressure). -/
abbrev MergeKey := String × Int × Nat × Option ℚ × Option ℚ × Option ℚ

def mergeKey (r : Row) : MergeKey :=
  (r.floatId, r.cycle, r.dateTime, r.lat, r.lon, r.pres)

/-- Number of missing values among the key columns
Pressure(dbar), Temperature(C), Salinity(psu) of a row
(the quantity `df[key_cols].isnull().sum(axis=1)` of the source). -/
def numMissingCore (r : Row) : Nat :=
  (if r.pres = none then 1 else 0) +
  (if r.temp = none then 1 else 0) +
  (if r.sal = none then 1 else 0)

/-- Python exceptions relevant to the converter: `keyError` models a
pandas/xarray KeyError (missing variable or missing dataframe column),
`osError` models an OSError raised when opening a NetCDF file. -/
inductive ConvError where
  | keyError
  | osError
  deriving DecidableEq

/-- An opened NetCDF dataset, as accessed by `nc_to_df`.  The per-profile
coordinate variables are total fields (every input file carries them);
the three core measurement variables are `Option`al: `none` models the
variable being absent from the file (so that indexing raises KeyError).
`bgcVars` lists whichever biogeochemical variables the file carries. -/
structure Dataset where
  cycles : List Int
  dates : List Nat
  lats : List (Option ℚ)
  lons : List (Option ℚ)
  nLevels : Nat
  pres : Option (List (List (Option ℚ)))
  temp : Option (List (List (Option ℚ)))
  psal : Option (List (List (Option ℚ)))
  bgcVars : List (String × List (List (Option ℚ)))

/-- Cell (i, j) of a 2-dimensional variable; out-of-range access yields
a missing value. -/
def getCell (data : List (List (Option ℚ))) (i j : Nat) : Option ℚ :=
  ((data.get? i).bind fun row => row.get? j).join

/-- Row (i, j) of the dataframe built by `nc_to_df`: per-profile values
broadcast across levels, per-level values taken from the 2-dimensional
arrays, plus the requested biogeochemical columns that the dataset
carries (keyed by their mapped output column names). -/
def mkRow (ds : Dataset) (presData tempData psalData : List (List (Option ℚ)))
    (bgcToExtract : List String) (floatId : String) (i j : Nat) : Row :=
  { floatId := floatId
    cycle := ds.cycles.getD i 0
    dateTime := ds.dates.getD i 0
    lat := ((ds.lats.get? i).join)
    lon := ((ds.lons.get? i).join)
    pres := getCell presData i j
    temp := getCell tempData i j
    sal := getCell psalData i j
    bgc := bgcToExtract.filterMap fun v =>
      match ds.bgcVars.lookup v with
      | some data => some ((BGC_VAR_MAP.lookup v).getD v, getCell data i j)
      | none => none }

/-- `nc_to_df` of the source.  Mirrors the control flow of the python
function: accessing a missing PRES variable raises KeyError; after the
dataframe is built, the row filter indexes the columns Temperature(C)
and Salinity(psu), so a missing TEMP or PSAL variable (whose column was
silently not added) raises KeyError there; otherwise the cartesian
(profile, level) table is built and the two row filters are applied:
first drop rows with two or more missing values among pressure,
temperature, salinity, then drop rows whose latitude and longitude are
both missing. -/
def nc_to_df (ds : Dataset) (bgcToExtract : List String) (floatId : String) :
    Except ConvError (List Row) :=
  match ds.pres with
  | none => .error .keyError
  | some presData =>
    match ds.temp, ds.psal with
    | some tempData, some psalData =>
      let nProfiles := ds.cycles.length
      let rows := (List.range nProfiles).flatMap fun i =>
        (List.range ds.nLevels).map fun j =>
          mkRow ds presData tempData psalData bgcToExtract floatId i j
      let rows := rows.filter fun r => decide (numMissingCore r < 2)
      let rows := rows.filter fun r => !(r.lat = none && r.lon = none)
      .ok rows
    | _, _ => .error .keyError

/-! ## Multi-source merge (lines 137-139 of the converter) -/

/-- `drop_duplicates(subset = key, keep = "last")` of pandas on a list:
an element is kept exactly when no later element shares its key, and the
kept elements stay in their original order. -/
def dropDupKeepLast {α κ : Type} [DecidableEq κ] (key : α → κ) : List α → List α
  | [] => []
  | x :: xs =>
    if xs.any (fun y => decide (key y = key x)) then dropDupKeepLast key xs
    else x :: dropDupKeepLast key xs

/-- The merge of the core-source dataframe with the biogeochemical-source
dataframe: concatenate core first, then biogeochemical, then
deduplicate on the merge key keeping the last row. -/
def mergeProfSprof (dfProf dfSprof : List Row) : List Row :=
  dropDupKeepLast mergeKey (dfProf ++ dfSprof)

/-! ## Catalog store: hash ledger and meta table (replace-by-key) -/

/-- One row of the processed-hash parquet table: (float_id, hash). -/
abbrev HashEntry := String × String

/-- One row of the catalog (meta) parquet table.  The numeric min/max
statistics columns and the printf-formatted sentence fragments of
Summary are floating-point presentation and are not modelled; the
structurally constrained fields are. -/
structure MetaEntry where
  floatId : String
  numProfiles : Nat
  numRows : Nat
  bgcVarsStr : String
  summaryTail : String
  deriving DecidableEq

/-- The trailing clause of the generated summary sentence:
Includes BGC parameters. when the biogeochemical variable list is
nonempty, Core variables only. otherwise (line 182 of the source). -/
def summaryTailClause (bgcNames : List String) : String :=
  if bgcNames.isEmpty then "Core variables only." else "Includes BGC parameters."

/-- The catalog entry built for one instrument from its processed table
`df` and the list `bgcNames` of mapped biogeochemical column names. -/
def mkMetaEntry (floatId : String) (df : List Row) (bgcNames : List String) :
    MetaEntry :=
  { floatId := floatId
    numProfiles := (df.map fun r => r.cycle).eraseDups.length
    numRows := df.length
    bgcVarsStr := String.intercalate ", " bgcNames
    summaryTail := summaryTailClause bgcNames }

/-- Hash-ledger upsert (lines 151-152 of the converter): drop every row
whose float_id equals the instrument, then append the fresh row. -/
def upsertLedger (floatId hash : String) (t : List HashEntry) : List HashEntry :=
  t.filter (fun e => e.1 != floatId) ++ [(floatId, hash)]

/-- Catalog (meta) upsert (lines 207-208 of the converter): drop every
row whose Float_ID equals the instrument, then append the fresh entry. -/
def upsertMeta (entry : MetaEntry) (t : List MetaEntry) : List MetaEntry :=
  t.filter (fun e => e.floatId != entry.floatId) ++ [entry]

/-- Processed-table storage: one table per instrument, the file named by
the instrument; writing replaces any previous version. -/
def upsertTable (floatId : String) (df : List Row) (t : List (String × List Row)) :
    List (String × List Row) :=
  t.filter (fun e => e.1 != floatId) ++ [(floatId, df)]

/-- Does the hash ledger record exactly this hash for this instrument
(the predicate of line 112 of the converter)? -/
def ledgerHas (t : List HashEntry) (floatId hash : String) : Bool :=
  t.any fun e => e.1 == floatId && e.2 == hash

/-! ## convert_single_float -/

/-- The input environment of one `convert_single_float` call: the
observable properties of the PROF and Sprof files on disk.  `profOpen`
and `sprofOpen` are the outcomes of opening the file as a dataset
(`.error .osError` models OSError from a corrupt or unreadable file). -/
structure FloatFS where
  floatId : String
  profExists : Bool
  profSize : Nat
  profHash : String
  profOpen : Except ConvError Dataset
  sprofGiven : Bool
  sprofExists : Bool
  sprofOpen : Except ConvError Dataset

/-- The mutable state touched by the converter: the processed-hash
ledger, the catalog (meta) table, and the per-instrument processed
tables. -/
structure ConvState where
  ledger : List HashEntry
  meta : List MetaEntry
  tables : List (String × List Row)
  deriving DecidableEq

/-- The python return value of `convert_single_float`:
`(None, False)` becomes `.skipped`, `(df, True)` becomes `.updated df`. -/
inductive ConvOutcome where
  | skipped
  | updated (df : List Row)
  deriving DecidableEq

/-- Observable side effects of one converter call: whether each file was
opened as a dataset and whether each store was written. -/
structure ConvEffects where
  openedProf : Bool
  openedSprof : Bool
  wroteTable : Bool
  wroteLedger : Bool
  wroteMeta : Bool
  deriving DecidableEq

def noEffects : ConvEffects :=
  { openedProf := false, openedSprof := false,
    wroteTable := false, wroteLedger := false, wroteMeta := false }

/-- The write phase of `convert_single_float` (lines 144-215): write the
processed table, upsert the hash ledger, upsert the catalog entry. -/
def finishConvert (fs : FloatFS) (st : ConvState) (currentHash : String)
    (df : List Row) (bgcNames : List String) (openedSprof : Bool) :
    ConvOutcome × ConvState × ConvEffects :=
  (.updated df,
   { ledger := upsertLedger fs.floatId currentHash st.ledger
     meta := upsertMeta (mkMetaEntry fs.floatId df bgcNames) st.meta
     tables := upsertTable fs.floatId df st.tables },
   { openedProf := true, openedSprof := openedSprof,
     wroteTable := true, wroteLedger := true, wroteMeta := true })

/-- The Sprof phase of `convert_single_float` (lines 130-142): open the
Sprof dataset, select the recognized biogeochemical variables it
carries, convert it, concatenate after the core dataframe and
deduplicate keeping the last row; the mapped column names become the
`bgcNames` list for the catalog entry. -/
def sprofPhase (fs : FloatFS) (dfProf : List Row) :
    Except ConvError (List Row × List String) :=
  match fs.sprofOpen with
  | .error e => .error e
  | .ok ds =>
    let bgcVars := (BGC_VAR_MAP.map Prod.fst).filter fun v =>
      (ds.bgcVars.lookup v).isSome
    match nc_to_df ds bgcVars fs.floatId with
    | .error e => .error e
    | .ok dfSprof =>
      .ok (mergeProfSprof dfProf dfSprof,
           bgcVars.filterMap fun v => BGC_VAR_MAP.lookup v)

/-- `convert_single_float` of the source.  Steps, in source order:
skip a missing or empty PROF file; skip when the hash ledger already
records the current PROF hash (before opening the file and with no
write); open and convert PROF, catching only OSError (any other
exception, such as the KeyError of a missing required variable,
propagates); when an Sprof path is given and the file exists, convert
and merge it, again catching only OSError (on OSError the core table
stands alone and the variables list stays empty); finally write the
processed table, the hash ledger and the catalog entry. -/
def convert_single_float (fs : FloatFS) (st : ConvState) :
    Except ConvError (ConvOutcome × ConvState × ConvEffects) :=
  if !fs.profExists || fs.profSize == 0 then
    .ok (.skipped, st, noEffects)
  else
    let currentHash := fs.profHash
    if ledgerHas st.ledger fs.floatId currentHash then
      .ok (.skipped, st, noEffects)
    else
      match (match fs.profOpen with
             | .error e => .error e
             | .ok ds => nc_to_df ds [] fs.floatId : Except ConvError (List Row)) with
      | .error .osError => .ok (.skipped, st, { noEffects with openedProf := true })
      | .error .keyError => .error .keyError
      | .ok dfProf =>
        if fs.sprofGiven && fs.sprofExists then
          match sprofPhase fs dfProf with
          | .error .osError => .ok (finishConvert fs st currentHash dfProf [] true)
          | .error .keyError => .error .keyError
          | .ok (df, bgcNames) =>
            .ok (finishConvert fs st currentHash df bgcNames true)
        else
          .ok (finishConvert fs st currentHash dfProf [] false)

/-- `preprocess_all_floats` of the source: fold the converter over the
discovered PROF files, counting updated instruments.  An uncaught
exception from one instrument (an `.error`) propagates and aborts the
whole batch. -/
def preprocess_all_floats (floats : List FloatFS) (st : ConvState) :
    Except ConvError (Nat × ConvState) :=
  match floats with
  | [] => .ok (0, st)
  | f :: rest =>
    match convert_single_float f st with
    | .error e => .error e
    | .ok (out, st2, _) =>
      match preprocess_all_floats rest st2 with
      | .error e => .error e
      | .ok (n, st3) =>
        .ok ((match out with | .updated _ => 1 | .skipped => 0) + n, st3)

/-! ## Archive synchronizer (dataset_extraction_ftp.py) -/

/-- `MAX_RETRIES` of the source. -/
def MAX_RETRIES : Nat := 10

/-- `RETRY_DELAY` of the source, in seconds. -/
def RETRY_DELAY : Nat := 120

/-- Outcome of one `FTP(FTP_HOST); login` attempt: success, the
transient busy-server signal (error_temp whose text contains 421), or
any other exception text. -/
inductive AttemptResult where
  | ok
  | busy421
  | otherError (msg : String)
  deriving DecidableEq

/-- Outcome of `connect_ftp_with_retry`: a connection (recording how
many busy retries were logged and how long the loop slept), the final
ConnectionError after `MAX_RETRIES` busy signals, or a re-raised
non-busy exception. -/
inductive ConnectOutcome where
  | connected (retryLogs sleptSeconds : Nat)
  | busyFailure
  | raised (msg : String)
  deriving DecidableEq

/-- The retry loop of `connect_ftp_with_retry`, with the remaining
allowance `fuel = MAX_RETRIES - retries` made structural: the source
loops while `retries < MAX_RETRIES`, that is while `fuel` is positive;
`r` counts the busy signals seen so far (one log entry and one
fixed-delay sleep each).  A non-busy error is re-raised at once. -/
def connectAux (attempts : Nat → AttemptResult) : Nat → Nat → ConnectOutcome
  | 0, _ => .busyFailure
  | fuel + 1, r =>
    match attempts r with
    | .ok => .connected r (r * RETRY_DELAY)
    | .busy421 => connectAux attempts fuel (r + 1)
    | .otherError m => .raised m

/-- `connect_ftp_with_retry` of the source, as a function of the stream
of per-attempt outcomes. -/
def connect_ftp_with_retry (attempts : Nat → AttemptResult) : ConnectOutcome :=
  connectAux attempts MAX_RETRIES 0

/-- Per-instrument result messages of the synchronizer. -/
inductive SyncMsg where
  | skippedMissingMeta (floatId : String)
  | skippedUnchanged (floatId : String)
  | metaUpdated (floatId : String)
  | downloadedProf (floatId : String)
  | downloadedSprof (floatId : String)
  deriving DecidableEq

/-- File-system operations performed by one synchronizer call, in
order.  `fetchToTmp c` downloads into the temporary name next to the
canonical path `c`; `replaceTmp c` is the atomic os.replace of that
temporary file onto `c`; `fetchDirect c` opens the canonical path `c`
itself for writing and streams the download into it. -/
inductive FileOp where
  | fetchToTmp (canonical : String)
  | removeTmp (canonical : String)
  | replaceTmp (canonical : String)
  | fetchDirect (canonical : String)
  deriving DecidableEq

def metaFileName (floatId : String) : String := floatId ++ "_meta.nc"

def profFileName (floatId : String) : String := floatId ++ "_prof.nc"

def sprofFileName (floatId : String) : String := floatId ++ "_Sprof.nc"

/-- The observable inputs of one `download_float_if_meta_changed` call
(after a successful connection): the remote directory listing of the
instrument, the hash of the locally stored metadata file (`none` when no
local copy exists), the hash of the freshly fetched temporary copy, and
the force_download flag. -/
structure SyncInput where
  floatId : String
  files : List String
  storedMetaHash : Option String
  fetchedMetaHash : String
  force : Bool

/-- `download_float_if_meta_changed` of the source, returning the
ordered result messages and the ordered trace of file operations.
Mirrors the source: skip when the metadata file is not listed; fetch
the metadata file to the temporary name; when a stored copy exists, the
flag is off and the two hashes agree, delete the temporary copy and
record the instrument as skipped; otherwise atomically replace the
stored metadata file, then download the core profile file (when
listed) and the biogeochemical profile file (when the instrument is
biogeochemical) directly to their canonical paths. -/
def download_float_if_meta_changed (inp : SyncInput) : List SyncMsg × List FileOp :=
  if metaFileName inp.floatId ∈ inp.files then
    let isBgc := sprofFileName inp.floatId ∈ inp.files
    let unchanged := !inp.force &&
      (match inp.storedMetaHash with
       | some h => h == inp.fetchedMetaHash
       | none => false)
    if unchanged then
      ([.skippedUnchanged inp.floatId],
       [.fetchToTmp (metaFileName inp.floatId), .removeTmp (metaFileName inp.floatId)])
    else
      let profListed := profFileName inp.floatId ∈ inp.files
      (.metaUpdated inp.floatId ::
         ((if profListed then [SyncMsg.downloadedProf inp.floatId] else []) ++
          (if isBgc then [SyncMsg.downloadedSprof inp.floatId] else [])),
       [.fetchToTmp (metaFileName inp.floatId), .replaceTmp (metaFileName inp.floatId)] ++
         (if profListed then [FileOp.fetchDirect (profFileName inp.floatId)] else []) ++
         (if isBgc then [FileOp.fetchDirect (sprofFileName inp.floatId)] else []))
  else
    ([.skippedMissingMeta inp.floatId], [])

/-- The discipline the specification asserts for the whole trace: every
write that lands on a canonical path goes through a temporary file and
an atomic replace, never a direct open of the canonical path. -/
def atomicReplaceOnly (ops : List FileOp) : Bool :=
  ops.all fun op =>
    match op with
    | .fetchDirect _ => false
    | _ => true

/-! ## Depth derivation -/

/-- Modelled from the spec: the Depth(m) column is produced by
`-gsw.z_from_p(pressure, latitude)`, a function of the external TEOS-10
gsw library whose code is not part of this repository.  Following the
specification text (a standard oceanographic pressure-to-depth relation,
gravity- and latitude-corrected), we model the Saunders relation.  The
latitude enters only through the square of its sine, so the model takes
`s2` = sin(latitude)^2 (a value in [0, 1]) as the latitude parameter:
the latitude-dependent coefficient (5.92 + 5.25 sin(lat)^2) x 10^-3. -/
def gravityCoeff (s2 : ℚ) : ℚ := (592 + 525 * s2) / 100000

/-- Modelled from the spec: depth in metres from pressure in decibars
and `s2` = sin(latitude)^2, by the gravity- and latitude-corrected
Saunders relation depth = (1 - c1) p - c2 p^2 with
c1 = `gravityCoeff s2` and c2 = 2.21 x 10^-6. -/
def depthFromPressure (p s2 : ℚ) : ℚ :=
  (1 - gravityCoeff s2) * p - (221 / 100000000) * p ^ 2

/-! ## Table invariants -/

/-- Replace-by-key discipline: no instrument ID occurs in more than one
row of the table. -/
def atMostOneId {α : Type} (key : α → String) (t : List α) : Prop :=
  ∀ floatId, t.countP (fun r => key r == floatId) ≤ 1

/-! ## Concrete inputs used for evaluation -/

/-- A well-formed one-profile, one-level dataset. -/
def dsGood : Dataset :=
  { cycles := [1], dates := [5], lats := [some 10], lons := [some 70],
    nLevels := 1,
    pres := some [[some 10]], temp := some [[some 29]], psal := some [[some 35]],
    bgcVars := [] }

/-- The dataset `dsGood` with the required TEMP variable absent. -/
def dsNoTemp : Dataset :=
  { dsGood with temp := none }

/-- The single measurement row `nc_to_df` extracts from `dsGood`. -/
def rowOf (floatId : String) : Row :=
  { floatId := floatId, cycle := 1, dateTime := 5, lat := some 10, lon := some 70,
    pres := some 10, temp := some 29, sal := some 35, bgc := [] }

def stEmpty : ConvState := { ledger := [], meta := [], tables := [] }

def stWithHash : ConvState :=
  { ledger := [("2900001", "h1")], meta := [], tables := [] }

def fsGood : FloatFS :=
  { floatId := "2900001", profExists := true, profSize := 100, profHash := "h1",
    profOpen := .ok dsGood, sprofGiven := false, sprofExists := false,
    sprofOpen := .error .osError }

def fsNoTemp : FloatFS :=
  { floatId := "2900002", profExists := true, profSize := 100, profHash := "h2",
    profOpen := .ok dsNoTemp, sprofGiven := false, sprofExists := false,
    sprofOpen := .error .osError }

def fsSprofBroken : FloatFS :=
  { floatId := "2900003", profExists := true, profSize := 100, profHash := "h3",
    profOpen := .ok dsGood, sprofGiven := true, sprofExists := true,
    sprofOpen := .error .osError }

def fsProfBroken : FloatFS :=
  { floatId := "2900004", profExists := true, profSize := 50, profHash := "h4",
    profOpen := .error .osError, sprofGiven := false, sprofExists := false,
    sprofOpen := .error .osError }

/-- A core row and a biogeochemical row sharing the merge key; the
biogeochemical row additionally carries an oxygen value. -/
def rowCoreW : Row :=
  { floatId := "2902", cycle := 3, dateTime := 7, lat := some 12, lon := some 68,
    pres := some 100, temp := some 15, sal := some 35, bgc := [] }

def rowSprofW : Row :=
  { rowCoreW with bgc := [("Dissolved_Oxygen(umol/kg)", some 200)] }

/-- Five busy-server signals, then a successful connection. -/
def attemptsBusy5 : Nat → AttemptResult := fun i => if i < 5 then .busy421 else .ok

/-- Nothing but busy-server signals. -/
def attemptsBusyAll : Nat → AttemptResult := fun _ => .busy421

/-- Three busy-server signals, then a non-busy error. -/
def attemptsOther : Nat → AttemptResult :=
  fun i => if i < 3 then .busy421 else .otherError "530 Login incorrect."

/-- A synchronizer input whose stored metadata hash matches the fetched
copy. -/
def inpUnchangedW : SyncInput :=
  { floatId := "124", files := ["124_meta.nc", "124_prof.nc"],
    storedMetaHash := some "abc", fetchedMetaHash := "abc", force := false }

/-- A synchronizer input with no stored metadata copy (first download). -/
def inpChangedW : SyncInput :=
  { floatId := "125", files := ["125_meta.nc", "125_prof.nc", "125_Sprof.nc"],
    storedMetaHash := none, fetchedMetaHash := "def", force := false }

/-- A synchronizer input whose core profile file gets downloaded. -/
def inpDirectProf : SyncInput :=
  { floatId := "123", files := ["123_meta.nc", "123_prof.nc"],
    storedMetaHash := none, fetchedMetaHash := "h1", force := false }

/-! ## Lemmas about drop_duplicates keep last -/

theorem dropDupKeepLast_subset {α κ : Type} [DecidableEq κ] (key : α → κ)
    (l : List α) : ∀ r ∈ dropDupKeepLast key l, r ∈ l := by
  induction l with
  | nil => simp [dropDupKeepLast]
  | cons x xs ih =>
    intro r hr
    rw [dropDupKeepLast] at hr
    by_cases hx : xs.any (fun y => decide (key y = key x)) = true
    · rw [if_pos hx] at hr
      exact List.mem_cons_of_mem x (ih r hr)
    · rw [if_neg hx] at hr
      rcases List.mem_cons.mp hr with h1 | h2
      · exact h1 ▸ List.mem_cons_self x xs
      · exact List.mem_cons_of_mem x (ih r h2)

/-- An element keyed `k` survives deduplication exactly once when the
input has at least one element keyed `k`, never otherwise. -/
theorem countP_dropDupKeepLast {α κ : Type} [DecidableEq κ] (key : α → κ) (k : κ)
    (l : List α) :
    (dropDupKeepLast key l).countP (fun r => decide (key r = k)) =
      if l.any (fun r => decide (key r = k)) then 1 else 0 := by
  induction l with
  | nil => simp [dropDupKeepLast]
  | cons x xs ih =>
    rw [dropDupKeepLast]
    by_cases hx : xs.any (fun y => decide (key y = key x)) = true
    · rw [if_pos hx, ih]
      by_cases hk : key x = k
      · have hany : xs.any (fun r => decide (key r = k)) = true := by
          rcases List.any_eq_true.mp hx with ⟨y, hy, hyk⟩
          exact List.any_eq_true.mpr
            ⟨y, hy, decide_eq_true (hk ▸ of_decide_eq_true hyk)⟩
        simp [List.any_cons, hany]
      · simp [List.any_cons, hk]
    · rw [if_neg hx, List.countP_cons, ih]
      by_cases hk : key x = k
      · have hany : xs.any (fun r => decide (key r = k)) = false := by
          rcases hfalse : xs.any (fun r => decide (key r = k)) with _ | _
          · rfl
          · exfalso
            apply hx
            rcases List.any_eq_true.mp hfalse with ⟨y, hy, hyk⟩
            exact List.any_eq_true.mpr
              ⟨y, hy, decide_eq_true (hk ▸ of_decide_eq_true hyk)⟩
        simp [List.any_cons, hany, hk]
      · simp [List.any_cons, hk]

/-- A survivor keyed `k` comes from the appended (right) list whenever
the right list carries the key at all. -/
theorem mem_dropDupKeepLast_append {α κ : Type} [DecidableEq κ] (key : α → κ)
    (k : κ) (l1 l2 : List α) (r : α) (hk : key r = k)
    (h2 : ∃ y ∈ l2, key y = k) :
    r ∈ dropDupKeepLast key (l1 ++ l2) → r ∈ l2 := by
  induction l1 with
  | nil => exact fun hr => dropDupKeepLast_subset key l2 r (by simpa using hr)
  | cons x l1 ih =>
    intro hr
    rw [List.cons_append, dropDupKeepLast] at hr
    by_cases hx : (l1 ++ l2).any (fun y => decide (key y = key x)) = true
    · rw [if_pos hx] at hr
      exact ih hr
    · rw [if_neg hx] at hr
      rcases List.mem_cons.mp hr with h1 | hmem
      · exfalso
        apply hx
        rcases h2 with ⟨y, hy, hyk⟩
        refine List.any_eq_true.mpr ⟨y, List.mem_append_right l1 hy, ?_⟩
        have : key x = k := h1 ▸ hk
        exact decide_eq_true (by rw [hyk, this])
      · exact ih hmem

/-! ## Claim theorems -/

/-- C1: when both the core source and the biogeochemical (Sprof) source
exist, the merged table is the core table with the biogeochemical rows
appended and duplicates dropped on the merge key keeping the later row
(definition `mergeProfSprof`); hence for every merge key present in
both sources the merged table has exactly one row with that key, and
that row is a row of the biogeochemical source (so it carries the
biogeochemical values for the overlapping fields). -/
theorem merge_precedence_bgc_wins (dfProf dfSprof : List Row) (k : MergeKey)
    (hc : ∃ r ∈ dfProf, mergeKey r = k) (hs : ∃ r ∈ dfSprof, mergeKey r = k) :
    (mergeProfSprof dfProf dfSprof).countP (fun r => decide (mergeKey r = k)) = 1
    ∧ ∀ r ∈ mergeProfSprof dfProf dfSprof, mergeKey r = k → r ∈ dfSprof := by
  constructor
  · rw [mergeProfSprof, countP_dropDupKeepLast]
    have hany : (dfProf ++ dfSprof).any (fun r => decide (mergeKey r = k)) = true := by
      rcases hs with ⟨y, hy, hyk⟩
      exact List.any_eq_true.mpr
        ⟨y, List.mem_append_right _ hy, decide_eq_true hyk⟩
    rw [if_pos hany]
  · intro r hr hk
    exact mem_dropDupKeepLast_append mergeKey k dfProf dfSprof r hk hs hr

/-- C1 witness: one core row and one biogeochemical row sharing a merge
key; the merged table keeps exactly the biogeochemical row. -/
theorem merge_precedence_bgc_wins_witness :
    (mergeProfSprof [rowCoreW] [rowSprofW]).countP
        (fun r => decide (mergeKey r = mergeKey rowCoreW)) = 1
    ∧ ∀ r ∈ mergeProfSprof [rowCoreW] [rowSprofW],
        mergeKey r = mergeKey rowCoreW → r ∈ [rowSprofW] :=
  merge_precedence_bgc_wins [rowCoreW] [rowSprofW] (mergeKey rowCoreW)
    ⟨rowCoreW, List.mem_singleton_self _, rfl⟩
    ⟨rowSprofW, List.mem_singleton_self _, rfl⟩

/-- C2: every row of a table emitted by `nc_to_df` has at most one
missing value among pressure, temperature, salinity, and latitude and
longitude are not both missing. -/
theorem row_filter_invariant (ds : Dataset) (bgcToExtract : List String)
    (floatId : String) (rows : List Row)
    (h : nc_to_df ds bgcToExtract floatId = .ok rows) :
    ∀ r ∈ rows, numMissingCore r ≤ 1 ∧ ¬(r.lat = none ∧ r.lon = none) := by
  intro r hr
  rcases hp : ds.pres with _ | presData <;> rw [nc_to_df, hp] at h
  · cases h
  rcases ht : ds.temp with _ | tempData <;> rw [ht] at h
  · cases h
  rcases hps : ds.psal with _ | psalData <;> rw [hps] at h
  · cases h
  have hrows : rows =
      (((List.range ds.cycles.length).flatMap fun i =>
          (List.range ds.nLevels).map fun j =>
            mkRow ds presData tempData psalData bgcToExtract floatId i j).filter
        fun r => decide (numMissingCore r < 2)).filter
          fun r => !(r.lat = none && r.lon = none) := by
    cases h; rfl
  subst hrows
  have h2 := List.mem_filter.mp hr
  have h1 := List.mem_filter.mp h2.1
  constructor
  · have := of_decide_eq_true h1.2
    omega
  · intro hboth
    have := h2.2
    simp [hboth.1, hboth.2] at this

/-- C2 witness: the row extracted from the concrete dataset `dsGood`
satisfies the invariant. -/
theorem row_filter_invariant_witness :
    numMissingCore (rowOf "2900001") ≤ 1
    ∧ ¬((rowOf "2900001").lat = none ∧ (rowOf "2900001").lon = none) :=
  row_filter_invariant dsGood [] "2900001" [rowOf "2900001"] rfl
    (rowOf "2900001") (List.mem_singleton_self _)

/-- C3: when the hash ledger already records the current hash of an
existing, nonempty core profile file, `convert_single_float` returns
the unchanged outcome (`(None, False)` of the source, `.skipped` here)
without opening the file as a dataset and with no write: the state
(ledger, catalog, processed tables) is returned untouched and every
effect flag is off. -/
theorem hash_gate_no_reprocess (fs : FloatFS) (st : ConvState)
    (h1 : fs.profExists = true) (h2 : fs.profSize ≠ 0)
    (h3 : ledgerHas st.ledger fs.floatId fs.profHash = true) :
    convert_single_float fs st = .ok (.skipped, st, noEffects) := by
  rw [convert_single_float]
  have hsz : (fs.profSize == 0) = false := by simpa using h2
  rw [h1, hsz]
  simp [h3]

/-- C3 witness: a concrete instrument whose hash is already recorded. -/
theorem hash_gate_no_reprocess_witness :
    convert_single_float fsGood stWithHash = .ok (.skipped, stWithHash, noEffects) :=
  hash_gate_no_reprocess fsGood stWithHash rfl (by decide) (by decide)

/-- Replace-by-key upsert on a list keeps the table free of duplicate
instrument IDs, provided the appended row carries the removed key. -/
theorem atMostOneId_upsert {α : Type} (key : α → String) (fid : String) (row : α)
    (hrow : key row = fid) (t : List α) (h : atMostOneId key t) :
    atMostOneId key (t.filter (fun r => key r != fid) ++ [row]) := by
  intro g
  rw [List.countP_append]
  by_cases hg : g = fid
  · rw [hg]
    have hzero : (t.filter (fun r => key r != fid)).countP
        (fun r => key r == fid) = 0 := by
      rw [List.countP_eq_zero]
      intro a ha
      have hne := (List.mem_filter.mp ha).2
      simp only [bne_iff_ne, ne_eq] at hne
      simp [hne]
    rw [hzero]
    simp [List.countP_cons, hrow]
  · have hle : (t.filter (fun r => key r != fid)).countP
        (fun r => key r == g) ≤ t.countP (fun r => key r == g) := by
      rw [List.countP_filter]
      exact List.countP_mono_left fun a _ ha => by
        simp only [Bool.and_eq_true] at ha
        exact ha.1
    have hone : ([row] : List α).countP (fun r => key r == g) = 0 := by
      have : (key row == g) = false := by
        rw [hrow]
        exact beq_eq_false_iff_ne.mpr fun hgg => hg hgg.symm
      simp [List.countP_cons, this]
    rw [hone]
    have := h g
    omega

theorem atMostOneId_foldl_ledger (ops : List HashEntry) :
    ∀ (t : List HashEntry), atMostOneId Prod.fst t →
      atMostOneId Prod.fst
        (ops.foldl (fun t op => upsertLedger op.1 op.2 t) t) := by
  induction ops with
  | nil => exact fun t h => h
  | cons op rest ih =>
    intro t h
    exact ih _ (atMostOneId_upsert Prod.fst op.1 (op.1, op.2) rfl t h)

theorem atMostOneId_foldl_meta (entries : List MetaEntry) :
    ∀ (t : List MetaEntry), atMostOneId MetaEntry.floatId t →
      atMostOneId MetaEntry.floatId
        (entries.foldl (fun t e => upsertMeta e t) t) := by
  induction entries with
  | nil => exact fun t h => h
  | cons e rest ih =>
    intro t h
    exact ih _ (atMostOneId_upsert MetaEntry.floatId e.floatId e rfl t h)

/-- C4: every upsert into the hash ledger or the catalog (meta) table
first removes any row with the same instrument ID and then appends the
fresh row; consequently, starting from a table with no duplicate IDs,
any sequence of upserts leaves each instrument ID in at most one row of
each table. -/
theorem upsert_replace_by_key (ops : List HashEntry) (t1 : List HashEntry)
    (h1 : atMostOneId Prod.fst t1)
    (entries : List MetaEntry) (t2 : List MetaEntry)
    (h2 : atMostOneId MetaEntry.floatId t2) :
    atMostOneId Prod.fst (ops.foldl (fun t op => upsertLedger op.1 op.2 t) t1)
    ∧ atMostOneId MetaEntry.floatId
        (entries.foldl (fun t e => upsertMeta e t) t2) :=
  ⟨atMostOneId_foldl_ledger ops t1 h1, atMostOneId_foldl_meta entries t2 h2⟩

/-- C4 witness: repeated upserts of the same instrument leave single
rows. -/
theorem upsert_replace_by_key_witness :
    atMostOneId Prod.fst
      ([("1", "a"), ("1", "b"), ("2", "c")].foldl
        (fun t op => upsertLedger op.1 op.2 t) [])
    ∧ atMostOneId MetaEntry.floatId
        ([mkMetaEntry "1" [] [], mkMetaEntry "1" [] []].foldl
          (fun t e => upsertMeta e t) []) :=
  upsert_replace_by_key [("1", "a"), ("1", "b"), ("2", "c")] []
    (fun fid => by simp)
    [mkMetaEntry "1" [] [], mkMetaEntry "1" [] []] []
    (fun fid => by simp)

/-- A run of `k` consecutive busy signals walks the retry loop forward
`k` steps, consuming `k` units of allowance. -/
theorem connectAux_busy_walk (attempts : Nat → AttemptResult) (k : Nat) :
    ∀ (fuel r : Nat), (∀ i, i < k → attempts (r + i) = .busy421) →
      connectAux attempts (fuel + k) r = connectAux attempts fuel (r + k) := by
  induction k with
  | zero => intro fuel r _; rfl
  | succ k ih =>
    intro fuel r hb
    have h0 : attempts r = .busy421 := by simpa using hb 0 (Nat.succ_pos k)
    have hstep : connectAux attempts (fuel + (k + 1)) r
        = connectAux attempts (fuel + k) (r + 1) := by
      show connectAux attempts ((fuel + k) + 1) r = _
      rw [connectAux, h0]
    rw [hstep, ih fuel (r + 1) fun i hi => by
      have := hb (i + 1) (Nat.succ_lt_succ hi)
      rwa [show r + (i + 1) = r + 1 + i by omega] at this]
    rw [show r + 1 + k = r + (k + 1) by omega]

/-- C5: the connection policy of `connect_ftp_with_retry`.  If the
first `n` attempts (n below MAX_RETRIES) all fail with the transient
busy-server signal and attempt `n` succeeds, the call returns a
connection having logged `n` retries and slept `n` fixed delays; if
MAX_RETRIES consecutive attempts are all busy, the call fails with the
permanent ConnectionError; and a non-busy error on the first non-busy
attempt is re-raised at once, without further retries. -/
theorem connect_retry_policy (attempts : Nat → AttemptResult) :
    (∀ n, n < MAX_RETRIES → (∀ i, i < n → attempts i = .busy421) →
       attempts n = .ok →
       connect_ftp_with_retry attempts = .connected n (n * RETRY_DELAY))
    ∧ ((∀ i, i < MAX_RETRIES → attempts i = .busy421) →
       connect_ftp_with_retry attempts = .busyFailure)
    ∧ (∀ n m, n < MAX_RETRIES → (∀ i, i < n → attempts i = .busy421) →
       attempts n = .otherError m →
       connect_ftp_with_retry attempts = .raised m) := by
  have hwalk : ∀ n, n ≤ MAX_RETRIES → (∀ i, i < n → attempts i = .busy421) →
      connect_ftp_with_retry attempts
        = connectAux attempts (MAX_RETRIES - n) n := by
    intro n hn hb
    rw [connect_ftp_with_retry,
      show MAX_RETRIES = (MAX_RETRIES - n) + n by omega]
    have := connectAux_busy_walk attempts n (MAX_RETRIES - n) 0
      fun i hi => by simpa using hb i hi
    simpa using this
  refine ⟨?_, ?_, ?_⟩
  · intro n hn hb hok
    rw [hwalk n (Nat.le_of_lt hn) hb,
      show MAX_RETRIES - n = (MAX_RETRIES - n - 1) + 1 by omega,
      connectAux, hok]
  · intro hb
    rw [hwalk MAX_RETRIES le_rfl hb]
    simp [connectAux]
  · intro n m hn hb hother
    rw [hwalk n (Nat.le_of_lt hn) hb,
      show MAX_RETRIES - n = (MAX_RETRIES - n - 1) + 1 by omega,
      connectAux, hother]

/-- C5 witness: five busy signals then success gives a connection with
five retry logs; ten busy signals give the permanent failure; a
non-busy error is re-raised. -/
theorem connect_retry_policy_witness :
    connect_ftp_with_retry attemptsBusy5 = .connected 5 600
    ∧ connect_ftp_with_retry attemptsBusyAll = .busyFailure
    ∧ connect_ftp_with_retry attemptsOther = .raised "530 Login incorrect." := by
  refine ⟨?_, ?_, ?_⟩
  · exact (connect_retry_policy attemptsBusy5).1 5 (by decide)
      (fun i hi => by simp [attemptsBusy5, hi]) (by decide)
  · exact (connect_retry_policy attemptsBusyAll).2.1 (fun i _ => rfl)
  · exact (connect_retry_policy attemptsOther).2.2 3 "530 Login incorrect."
      (by decide) (fun i hi => by simp [attemptsOther, hi]) (by decide)

/-- C6: when the stored metadata hash matches the hash of the freshly
fetched copy and force_download is off, the synchronizer deletes the
temporary copy, records the instrument as skipped (unchanged) and
performs no other file operation, in particular zero profile-file
downloads; otherwise (hash differs, no stored copy, or the flag is set)
it atomically replaces the stored metadata file and downloads the
listed core profile file and, for a biogeochemical instrument, the
Sprof file. -/
theorem meta_hash_gate (inp : SyncInput)
    (hm : metaFileName inp.floatId ∈ inp.files) :
    (inp.force = false → inp.storedMetaHash = some inp.fetchedMetaHash →
       download_float_if_meta_changed inp =
         ([.skippedUnchanged inp.floatId],
          [.fetchToTmp (metaFileName inp.floatId),
           .removeTmp (metaFileName inp.floatId)]))
    ∧ ((inp.force = true ∨ inp.storedMetaHash ≠ some inp.fetchedMetaHash) →
       FileOp.replaceTmp (metaFileName inp.floatId)
           ∈ (download_float_if_meta_changed inp).2
       ∧ (profFileName inp.floatId ∈ inp.files →
            FileOp.fetchDirect (profFileName inp.floatId)
              ∈ (download_float_if_meta_changed inp).2)
       ∧ (sprofFileName inp.floatId ∈ inp.files →
            FileOp.fetchDirect (sprofFileName inp.floatId)
              ∈ (download_float_if_meta_changed inp).2)) := by
  constructor
  · intro hforce hstored
    rw [download_float_if_meta_changed, if_pos hm]
    have hun : (!inp.force &&
        (match inp.storedMetaHash with
         | some h => h == inp.fetchedMetaHash
         | none => false)) = true := by
      rw [hforce, hstored]
      simp
    rw [if_pos hun]
  · intro hchanged
    have hun : (!inp.force &&
        (match inp.storedMetaHash with
         | some h => h == inp.fetchedMetaHash
         | none => false)) = false := by
      rcases hchanged with hf | hne
      · rw [hf]; rfl
      · rcases hsm : inp.storedMetaHash with _ | h
        · simp
        · have : (h == inp.fetchedMetaHash) = false := by
            refine beq_eq_false_iff_ne.mpr fun he => hne ?_
            rw [hsm, he]
          simp [this]
    rw [download_float_if_meta_changed, if_pos hm]
    rw [if_neg (by simp [hun])]
    refine ⟨by simp, fun hp => ?_, fun hs => ?_⟩
    · simp [hp]
    · simp [hs]

/-- C6 witness: identical hashes give the skip with exactly the
temporary fetch and delete; a missing stored copy triggers the replace
and both profile downloads. -/
theorem meta_hash_gate_witness :
    download_float_if_meta_changed inpUnchangedW =
      ([.skippedUnchanged "124"], [.fetchToTmp "124_meta.nc", .removeTmp "124_meta.nc"])
    ∧ FileOp.fetchDirect "125_prof.nc"
        ∈ (download_float_if_meta_changed inpChangedW).2 := by
  constructor
  · exact (meta_hash_gate inpUnchangedW (by decide)).1 rfl rfl
  · exact ((meta_hash_gate inpChangedW (by decide)).2
      (Or.inr (by decide))).2.1 (by decide)

/-- C8 counterexample: the synchronizer does not use the
temporary-then-atomic-replace discipline for every download: on a
concrete instrument whose metadata changed, the trace of file
operations opens the canonical core-profile path directly
(`atomicReplaceOnly` is false), so an interrupted transfer would leave
an incomplete file under the canonical name. -/
theorem profile_download_not_atomic :
    atomicReplaceOnly (download_float_if_meta_changed inpDirectProf).2 = false := by
  decide

/-- C8 (amended): only the metadata file is handled with the
temporary-then-atomic-replace discipline (its temporary copy is always
either removed or atomically moved onto the canonical path, and the
canonical metadata path is never opened directly); the profile files
are the only downloads opened directly at their canonical paths. -/
theorem meta_atomic_profile_direct (inp : SyncInput) :
    (∀ c, FileOp.fetchDirect c ∈ (download_float_if_meta_changed inp).2 →
       c = profFileName inp.floatId ∨ c = sprofFileName inp.floatId)
    ∧ (FileOp.fetchToTmp (metaFileName inp.floatId)
          ∈ (download_float_if_meta_changed inp).2 →
       FileOp.removeTmp (metaFileName inp.floatId)
           ∈ (download_float_if_meta_changed inp).2
       ∨ FileOp.replaceTmp (metaFileName inp.floatId)
           ∈ (download_float_if_meta_changed inp).2) := by
  rw [download_float_if_meta_changed]
  by_cases hm : metaFileName inp.floatId ∈ inp.files
  · rw [if_pos hm]
    by_cases hun : (!inp.force &&
        (match inp.storedMetaHash with
         | some h => h == inp.fetchedMetaHash
         | none => false)) = true
    · rw [if_pos hun]
      refine ⟨fun c hc => ?_, fun _ => Or.inl (by simp)⟩
      simp at hc
    · rw [if_neg hun]
      constructor
      · intro c hc
        by_cases hp : profFileName inp.floatId ∈ inp.files <;>
        by_cases hs : sprofFileName inp.floatId ∈ inp.files <;>
        simp [hp, hs] at hc <;>
        first
          | exact hc
          | exact Or.inl hc
          | exact Or.inr hc
      · intro _
        exact Or.inr (by simp)
  · rw [if_neg hm]
    exact ⟨fun c hc => by simp at hc, fun hc => by simp at hc⟩

/-- C8 (amended) witness: on the concrete changed instrument, the only
direct canonical-path write is the core profile file, and the metadata
temporary copy is replaced atomically. -/
theorem meta_atomic_profile_direct_witness :
    ("123_prof.nc" = profFileName "123" ∨ "123_prof.nc" = sprofFileName "123")
    ∧ (FileOp.removeTmp "123_meta.nc"
          ∈ (download_float_if_meta_changed inpDirectProf).2
       ∨ FileOp.replaceTmp "123_meta.nc"
          ∈ (download_float_if_meta_changed inpDirectProf).2) := by
  constructor
  · exact (meta_atomic_profile_direct inpDirectProf).1 "123_prof.nc" (by decide)
  · exact (meta_atomic_profile_direct inpDirectProf).2 (by decide)

/-- A dataset lacking any of the required variables makes `nc_to_df`
raise KeyError. -/
theorem nc_to_df_missing_required (ds : Dataset) (bgcToExtract : List String)
    (floatId : String)
    (hmiss : ds.pres = none ∨ ds.temp = none ∨ ds.psal = none) :
    nc_to_df ds bgcToExtract floatId = .error .keyError := by
  rw [nc_to_df]
  rcases hp : ds.pres with _ | presData
  · rfl
  rcases ht : ds.temp with _ | tempData
  · rfl
  rcases hps : ds.psal with _ | psalData
  · rfl
  rcases hmiss with h | h | h
  · rw [hp] at h; cases h
  · rw [ht] at h; cases h
  · rw [hps] at h; cases h

/-- C7 counterexample: a core profile file lacking the required TEMP
variable does not produce a structured missing-field failure value:
`convert_single_float` raises KeyError (only OSError is caught), and a
batch containing that instrument followed by a healthy one aborts with
the propagated exception instead of continuing. -/
theorem missing_var_aborts_batch :
    convert_single_float fsNoTemp stEmpty = .error .keyError
    ∧ preprocess_all_floats [fsNoTemp, fsGood] stEmpty = .error .keyError :=
  ⟨rfl, rfl⟩

/-- C7 (amended): the per-instrument boundary of `convert_single_float`
catches only OSError — an unreadable core profile file yields the
structured skip outcome and the batch continues — while a core profile
file lacking a required variable (pressure, temperature or salinity)
raises an uncaught KeyError that propagates out of the converter and
aborts `preprocess_all_floats`, so the remaining instruments of the
batch are not processed. -/
theorem per_float_error_boundary (fs : FloatFS) (st : ConvState) (ds : Dataset)
    (h1 : fs.profExists = true) (h2 : fs.profSize ≠ 0)
    (h3 : ledgerHas st.ledger fs.floatId fs.profHash = false) :
    (fs.profOpen = .error .osError →
       convert_single_float fs st
         = .ok (.skipped, st, { noEffects with openedProf := true }))
    ∧ (fs.profOpen = .ok ds →
       (ds.pres = none ∨ ds.temp = none ∨ ds.psal = none) →
       convert_single_float fs st = .error .keyError
       ∧ ∀ rest, preprocess_all_floats (fs :: rest) st = .error .keyError) := by
  have hsz : (fs.profSize == 0) = false := by simpa using h2
  constructor
  · intro hopen
    rw [convert_single_float, h1, hsz]
    simp [h3, hopen, Except.bind]
  · intro hopen hmiss
    have hconv : convert_single_float fs st = .error .keyError := by
      rw [convert_single_float, h1, hsz]
      simp [h3, hopen, Except.bind,
        nc_to_df_missing_required ds [] fs.floatId hmiss]
    refine ⟨hconv, fun rest => ?_⟩
    rw [preprocess_all_floats, hconv]

/-- C7 (amended) witness: a concrete unreadable file is skipped; a
concrete file with TEMP absent aborts any batch it heads. -/
theorem per_float_error_boundary_witness :
    convert_single_float fsProfBroken stEmpty
      = .ok (.skipped, stEmpty, { noEffects with openedProf := true })
    ∧ (convert_single_float fsNoTemp stEmpty = .error .keyError
       ∧ ∀ rest, preprocess_all_floats (fsNoTemp :: rest) stEmpty
           = .error .keyError) := by
  constructor
  · exact (per_float_error_boundary fsProfBroken stEmpty dsGood rfl
      (by decide) rfl).1 rfl
  · exact (per_float_error_boundary fsNoTemp stEmpty dsNoTemp rfl
      (by decide) rfl).2 rfl (Or.inr (Or.inl rfl))

/-- C9: with the pressure-to-depth relation modelled from the
specification (gravity- and latitude-corrected Saunders formula,
parametrized by the squared sine of the latitude), depth strictly
increases with pressure throughout the oceanographic pressure range
0..12000 dbar at every fixed latitude; moreover the relation genuinely
depends on the latitude and is not a flat linear function of
pressure. -/
theorem depth_monotone_latitude_corrected (s2 p1 p2 : ℚ)
    (hs0 : 0 ≤ s2) (hs1 : s2 ≤ 1) (hp0 : 0 ≤ p1) (h12 : p1 < p2)
    (hub : p2 ≤ 12000) :
    depthFromPressure p1 s2 < depthFromPressure p2 s2
    ∧ depthFromPressure 1000 0 ≠ depthFromPressure 1000 1
    ∧ depthFromPressure 2000 0 ≠ 2 * depthFromPressure 1000 0 := by
  refine ⟨?_, by norm_num [depthFromPressure, gravityCoeff],
    by norm_num [depthFromPressure, gravityCoeff]⟩
  have hdiff : depthFromPressure p2 s2 - depthFromPressure p1 s2
      = (p2 - p1) * (1 - gravityCoeff s2 - (221 / 100000000) * (p1 + p2)) := by
    unfold depthFromPressure
    ring
  have hbr : 0 < 1 - gravityCoeff s2 - (221 / 100000000) * (p1 + p2) := by
    unfold gravityCoeff
    linarith
  have hpos := mul_pos (sub_pos.mpr h12) hbr
  linarith [hdiff ▸ hpos]

/-- C9 witness: concrete pressures at the equator. -/
theorem depth_monotone_latitude_corrected_witness :
    depthFromPressure 0 0 < depthFromPressure 1000 0
    ∧ depthFromPressure 1000 0 ≠ depthFromPressure 1000 1
    ∧ depthFromPressure 2000 0 ≠ 2 * depthFromPressure 1000 0 :=
  depth_monotone_latitude_corrected 0 0 1000 le_rfl zero_le_one le_rfl
    (by norm_num) (by norm_num)

/-- C10: when the Sprof path is given and the file exists but opening
it raises OSError, the converter still succeeds for the instrument: it
writes the processed table built from the core source alone, the
catalog entry records an empty biogeochemical variable list (BGC_Vars
is the empty string and the summary ends with Core variables only.),
the hash ledger is updated with the current hash, and the instrument is
reported as updated. -/
theorem sprof_open_failure_core_only (fs : FloatFS) (st : ConvState)
    (ds : Dataset) (dfProf : List Row)
    (h1 : fs.profExists = true) (h2 : fs.profSize ≠ 0)
    (h3 : ledgerHas st.ledger fs.floatId fs.profHash = false)
    (h4 : fs.profOpen = .ok ds) (h5 : nc_to_df ds [] fs.floatId = .ok dfProf)
    (h6 : fs.sprofGiven = true) (h7 : fs.sprofExists = true)
    (h8 : fs.sprofOpen = .error .osError) :
    convert_single_float fs st =
      .ok (.updated dfProf,
        { ledger := upsertLedger fs.floatId fs.profHash st.ledger
          meta := upsertMeta (mkMetaEntry fs.floatId dfProf []) st.meta
          tables := upsertTable fs.floatId dfProf st.tables },
        { openedProf := true, openedSprof := true,
          wroteTable := true, wroteLedger := true, wroteMeta := true })
    ∧ (mkMetaEntry fs.floatId dfProf []).bgcVarsStr = ""
    ∧ (mkMetaEntry fs.floatId dfProf []).summaryTail = "Core variables only." := by
  have hsz : (fs.profSize == 0) = false := by simpa using h2
  refine ⟨?_, rfl, rfl⟩
  rw [convert_single_float, h1, hsz]
  have hsp : sprofPhase fs dfProf = .error .osError := by
    rw [sprofPhase, h8]
  simp [h3, h4, h5, h6, h7, hsp, Except.bind, finishConvert]

/-- C10 witness: a concrete instrument with a healthy core file and an
unreadable Sprof file. -/
theorem sprof_open_failure_core_only_witness :
    convert_single_float fsSprofBroken stEmpty =
      .ok (.updated [rowOf "2900003"],
        { ledger := [("2900003", "h3")]
          meta := [mkMetaEntry "2900003" [rowOf "2900003"] []]
          tables := [("2900003", [rowOf "2900003"])] },
        { openedProf := true, openedSprof := true,
          wroteTable := true, wroteLedger := true, wroteMeta := true })
    ∧ (mkMetaEntry "2900003" [rowOf "2900003"] []).bgcVarsStr = ""
    ∧ (mkMetaEntry "2900003" [rowOf "2900003"] []).summaryTail
        = "Core variables only." :=
  sprof_open_failure_core_only fsSprofBroken stEmpty dsGood [rowOf "2900003"]
    rfl (by decide) rfl rfl rfl rfl rfl rfl

end Argo
